import Mathlib

/-!
Verification development for the hhcli background-synchronization and
debounced-cache-loading core.

The definitions below are a shallow embedding of the Python source:

* the Debounce Gate and detail-load path of
  src/hhcli/ui/screens/history.py
  (on_option_list_option_highlighted, load_vacancy_details,
  fetch_history_details, display_history_details, _display_details_error,
  _refresh_history);
* the history-sync worker and the profile bootstrap of
  src/hhcli/ui/app.py (_sync_history_worker, proceed_with_profile,
  on_profile_selected).

The persistent cache store (get_vacancy_from_cache / save_vacancy_to_cache,
which live in a database module that is not part of the analysed sources) is
modelled from the spec, as noted on those definitions.

Worker dispatch is modelled cooperatively: run_worker with exclusive=True
marks previously dispatched fetches of the screen as cancel-requested, and a
fetch body, once started, runs to completion regardless of that flag, because
the body of fetch_history_details contains no await and never consults a
cancellation flag, so a cancellation request has no checkpoint at which to
take effect.
-/

/- ----------------------------------------------------------------- -/
/- Debounce Gate: on_option_list_option_highlighted, history.py 342-352 -/
/- ----------------------------------------------------------------- -/

/-- State of the Debounce Gate: the at-most-one pending debounce timer,
carrying the vacancy id its callback captured.  A stopped timer is
represented by none. -/
structure GateState where
  timer : Option String
deriving Repr, DecidableEq

/-- Validity of an option id as used by the highlight handler: the handler
returns early when the id is falsy (absent or empty) or is the placeholder
id used for the empty-history row. -/
def valid_vacancy_id (vid : String) : Prop :=
  vid ≠ "" ∧ vid ≠ "__none__"

instance (vid : String) : Decidable (valid_vacancy_id vid) := by
  unfold valid_vacancy_id; infer_instance

/-- Translation of on_option_list_option_highlighted: the pending timer is
stopped first; if the event id is absent, empty or the placeholder, no new
timer is scheduled; otherwise a fresh timer is scheduled carrying that id. -/
def on_option_list_option_highlighted (_g : GateState) (optId : Option String) :
    GateState :=
  match optId with
  | none => GateState.mk none
  | some vid =>
      if vid = "" ∨ vid = "__none__" then GateState.mk none
      else GateState.mk (some vid)

/-- Loads triggered when the gate settles (the quiet period elapses with no
further notification): the pending timer, if any, fires once with the id it
captured. -/
def settle_gate (g : GateState) : List String :=
  match g.timer with
  | none => []
  | some vid => [vid]

/- ----------------------------------------------------------------- -/
/- Detail Cache store (modelled from the spec)                        -/
/- ----------------------------------------------------------------- -/

/-- Modelled from the spec: get_vacancy_from_cache, the cache store's
get(resource_id) returning the payload or absent; the store module is not
among the analysed sources. -/
def get_vacancy_from_cache : List (String × String) → String → Option String
  | [], _ => none
  | (k, v) :: rest, vid =>
      if k = vid then some v else get_vacancy_from_cache rest vid

/-- Modelled from the spec: save_vacancy_to_cache, the cache store's
put(resource_id, payload); a write replaces any prior entry for that
resource id (at most one entry per key). -/
def save_vacancy_to_cache (c : List (String × String)) (vid payload : String) :
    List (String × String) :=
  (vid, payload) :: c.filter (fun e => decide (e.1 ≠ vid))

/- ----------------------------------------------------------------- -/
/- Detail load path, history.py 354-371, 401-460                      -/
/- ----------------------------------------------------------------- -/

/-- One dispatched background fetch: the vacancy id it was started for and
whether a later exclusive dispatch has requested its cancellation. -/
structure Fetch where
  vid : String
  cancelRequested : Bool
deriving Repr, DecidableEq

/-- Outcome of the remote detail call inside a background fetch. -/
inductive FetchOutcome where
  | success (payload : String)
  | authPending (msg : String)
  | otherError (msg : String)
deriving Repr, DecidableEq

/-- State of the history screen's detail-load path.  loaderLog records every
set_loader_visible call in order, so that show/clear discipline is
observable; dispatched is the append-only log of background fetches started
by this screen. -/
structure LoadState where
  pending_details_id : Option String
  cache : List (String × String)
  loader : Bool
  loaderLog : List Bool
  details : String
  dispatched : List Fetch
  notifs : List String
  logs : List (String × String)
deriving Repr, DecidableEq

/-- Translation of set_loader_visible as used by the screen: sets the
loading indicator and records the call. -/
def set_loader_visible (s : LoadState) (b : Bool) : LoadState :=
  { s with loader := b, loaderLog := s.loaderLog ++ [b] }

/-- Stand-in for build_history_details_markdown (an excluded rendering
collaborator): a concrete injective encoding of the rendered document. -/
def render_details (payload vid : String) : String :=
  String.append (String.append (String.append "details:" vid) ":") payload

/-- Translation of display_history_details, history.py 437-450: if the
delivered id is not the current pending id the method returns at once
(nothing is updated and the loader is not touched); otherwise the rendered
document replaces the detail pane and the loader is cleared. -/
def display_history_details (s : LoadState) (details vid : String) : LoadState :=
  if s.pending_details_id ≠ some vid then s
  else set_loader_visible { s with details := render_details details vid } false

/-- Translation of _display_details_error, history.py 458-460: the message
replaces the detail pane and the loader is cleared, with no staleness
check. -/
def display_details_error (s : LoadState) (message : String) : LoadState :=
  set_loader_visible { s with details := message } false

/-- Marks a previously dispatched fetch as cancel-requested; this is what
run_worker with exclusive=True does to the screen's earlier workers. -/
def request_cancel (f : Fetch) : Fetch :=
  { f with cancelRequested := true }

/-- Translation of load_vacancy_details, history.py 354-371: a falsy id is a
no-op; otherwise the pending id is recorded, the loader shown, the pane
cleared; a cache hit is displayed synchronously and the loader cleared with
no dispatch; a miss dispatches a background fetch (exclusive, so earlier
fetches become cancel-requested). -/
def load_vacancy_details (s : LoadState) (vacancy_id : Option String) :
    LoadState :=
  match vacancy_id with
  | none => s
  | some vid =>
      if vid = "" then s
      else
        let s1 :=
          { set_loader_visible { s with pending_details_id := some vid } true with
              details := "" }
        match get_vacancy_from_cache s.cache vid with
        | some cached =>
            set_loader_visible (display_history_details s1 cached vid) false
        | none =>
            { s1 with
                dispatched := s1.dispatched.map request_cancel ++ [Fetch.mk vid false] }

/-- Error text shown by the authorization branch of fetch_history_details. -/
def auth_details_message : String :=
  "Требуется авторизация для просмотра деталей."

/-- Toast text queued by the authorization branch of fetch_history_details. -/
def auth_notify_message : String :=
  "Авторизуйтесь повторно, чтобы просмотреть детали отклика."

/-- Error text shown by the generic failure branch of
fetch_history_details. -/
def error_details_message (e : String) : String :=
  String.append "Ошибка загрузки: " e

/-- Translation of fetch_history_details, history.py 401-435, as delivered
back to the loop on completion of the fetch f: on success the payload is
written through to the cache and then offered to the view (the view update
itself is gated by display_history_details); on authorization-pending a
warning is logged, a toast queued, and the error pane shown; on any other
failure an error is logged and the error pane shown.  No branch consults
f.cancelRequested: the body has no cancellation checkpoint. -/
def fetch_history_details (s : LoadState) (f : Fetch) (o : FetchOutcome) :
    LoadState :=
  match o with
  | FetchOutcome.success payload =>
      display_history_details
        { s with cache := save_vacancy_to_cache s.cache f.vid payload }
        payload f.vid
  | FetchOutcome.authPending m =>
      display_details_error
        { s with
            logs := s.logs ++
              [("WARN", String.append "Загрузка деталей отклика приостановлена: " m)],
            notifs := s.notifs ++ [auth_notify_message] }
        auth_details_message
  | FetchOutcome.otherError e =>
      display_details_error
        { s with
            logs := s.logs ++
              [("ERROR",
                String.append (String.append "Ошибка деталей " f.vid)
                  (String.append ": " e))] }
        (error_details_message e)

/- ----------------------------------------------------------------- -/
/- History refresh, history.py 238-291 (claim-relevant tail)          -/
/- ----------------------------------------------------------------- -/

/-- One history entry as far as the refresh logic consumes it. -/
structure HistEntry where
  vacancy_id : Option String
deriving Repr, DecidableEq

/-- The option id given to a history row: str of the entry's vacancy id with
falsy values collapsed to the empty string. -/
def option_id_of (e : HistEntry) : String :=
  match e.vacancy_id with
  | none => ""
  | some v => v

/-- Result of a history refresh: the highlighted row, the detail-load state
after any direct synchronous load, and the (untouched) gate state. -/
structure RefreshResult where
  highlighted : Option Nat
  loadState : LoadState
  gate : GateState
deriving Repr, DecidableEq

/-- Translation of the tail of _refresh_history, history.py 255-291: with no
entries a placeholder row and pane are shown and the loader cleared; with
entries the first row is highlighted and, unless its id is the placeholder
id, load_vacancy_details is invoked directly in the same synchronous step.
The method never touches the debounce timer. -/
def refresh_history (entries : List HistEntry) (ls : LoadState) (g : GateState) :
    RefreshResult :=
  match entries with
  | [] =>
      RefreshResult.mk none
        (set_loader_visible { ls with details := "Нет данных для отображения." } false)
        g
  | e :: _ =>
      let fid := option_id_of e
      if fid = "__none__" then RefreshResult.mk (some 0) ls g
      else RefreshResult.mk (some 0) (load_vacancy_details ls (some fid)) g

/- ----------------------------------------------------------------- -/
/- Sync Coordinator worker, app.py 152-168                            -/
/- ----------------------------------------------------------------- -/

/-- Outcome of client.sync_negotiation_history inside the sync worker. -/
inductive SyncOutcome where
  | ok
  | authPending (msg : String)
  | otherError (msg : String)
deriving Repr, DecidableEq

/-- Observable result of one run of the sync worker function: how many times
the sync was attempted, the log entries written, the notifications
marshalled to the loop, and the exception (if any) escaping the function's
own boundary. -/
structure WorkerRun where
  sync_calls : Nat
  logs : List (String × String)
  marshalled_notifs : List String
  raised : Option String
deriving Repr, DecidableEq

/-- Toast text queued by the sync worker's authorization branch. -/
def sync_auth_notify_message : String :=
  "Авторизация требуется для синхронизации истории откликов."

/-- Translation of _sync_history_worker, app.py 152-168: the sync is called
once; an authorization-pending failure is caught, logged at WARN and turned
into a marshalled warning toast, with nothing re-raised and no retry; the
function has no other handler, so any other failure escapes it uncaught and
unlogged. -/
def sync_history_worker : SyncOutcome → WorkerRun
  | SyncOutcome.ok => WorkerRun.mk 1 [] [] none
  | SyncOutcome.authPending m =>
      WorkerRun.mk 1
        [("WARN", String.append "Синхронизация истории остановлена: " m)]
        [sync_auth_notify_message]
        none
  | SyncOutcome.otherError e => WorkerRun.mk 1 [] [] (some e)

/- ----------------------------------------------------------------- -/
/- Profile bootstrap, app.py 94-150                                   -/
/- ----------------------------------------------------------------- -/

/-- Where the bootstrap body raised, when it raised: at the token check
(before the sync toast and worker dispatches) or at the resume fetch
(after them). -/
inductive BootStep where
  | tokenCheck
  | resumeFetch
deriving Repr, DecidableEq

/-- Outcome of the bootstrap body of proceed_with_profile. -/
inductive BootOutcome where
  | ok (resumeCount : Nat)
  | auth (step : BootStep) (msg : String)
  | err (step : BootStep) (msg : String)
deriving Repr, DecidableEq

/-- Screens the bootstrap can push. -/
inductive ScreenKind where
  | searchMode
  | resumeSelection
  | profileSelection
deriving Repr, DecidableEq

/-- Observable result of one call to proceed_with_profile. -/
structure AppResult where
  sub_title : String
  notifs : List (String × String)
  logs : List (String × String)
  workers : List String
  pushed : List ScreenKind
  exited : Bool
  exit_error : Option String
deriving Repr, DecidableEq

/-- Subtitle shown for a usable profile session. -/
def normal_sub_title (p : String) : String :=
  String.append "Профиль: " p

/-- Subtitle shown while the profile awaits reauthorization. -/
def pending_sub_title (p : String) : String :=
  String.append (String.append "Профиль: " p) " (ожидание авторизации)"

/-- Toast text announcing the history sync. -/
def sync_start_notify : String :=
  "Синхронизация истории откликов..."

/-- Warning toast shown when bootstrap observes authorization-pending. -/
def auth_bootstrap_notify : String :=
  "Требуется повторная авторизация. Завершите вход в открывшемся браузере и повторите выбор профиля."

/-- Effects of the bootstrap body that precede a raise at the given step. -/
def boot_prefix_notifs : BootStep → List (String × String)
  | BootStep.tokenCheck => []
  | BootStep.resumeFetch => [("information", sync_start_notify)]

/-- Log entries of the bootstrap body that precede a raise at the given
step. -/
def boot_prefix_logs (p : String) : BootStep → List (String × String)
  | BootStep.tokenCheck => []
  | BootStep.resumeFetch => [("INFO", String.append "Загрузка резюме для " p)]

/-- Workers dispatched by the bootstrap body before a raise at the given
step. -/
def boot_prefix_workers : BootStep → List String
  | BootStep.tokenCheck => []
  | BootStep.resumeFetch => ["DictCacheWorker", "SyncWorker"]

/-- Translation of proceed_with_profile, app.py 102-150: on success the
session subtitle is set, the sync toast shown, the dictionary and sync
workers dispatched, and the search-mode screen (one resume) or the
resume-selection screen pushed; on authorization-pending a warning is
logged, the subtitle marked pending, a non-blocking warning toast shown and
the profile-selection screen pushed again, without exiting; on any other
failure an error is logged and the app exits with the failure. -/
def proceed_with_profile (p : String) (o : BootOutcome) : AppResult :=
  match o with
  | BootOutcome.ok n =>
      AppResult.mk (normal_sub_title p)
        [("information", sync_start_notify)]
        [("INFO", String.append "Загрузка резюме для " p)]
        ["DictCacheWorker", "SyncWorker"]
        [if n = 1 then ScreenKind.searchMode else ScreenKind.resumeSelection]
        false
        none
  | BootOutcome.auth step m =>
      AppResult.mk (pending_sub_title p)
        (boot_prefix_notifs step ++ [("warning", auth_bootstrap_notify)])
        (boot_prefix_logs p step ++
          [("WARN",
            String.append (String.append "Профиль " p)
              (String.append " требует повторной авторизации: " m))])
        (boot_prefix_workers step)
        [ScreenKind.profileSelection]
        false
        none
  | BootOutcome.err step m =>
      AppResult.mk (normal_sub_title p)
        (boot_prefix_notifs step)
        (boot_prefix_logs p step ++
          [("ERROR", String.append "Критическая ошибка профиля/резюме: " m)])
        (boot_prefix_workers step)
        []
        true
        (some m)

/-- Result of the profile-selection callback. -/
inductive SelResult where
  | exited
  | proceeded (p : String) (r : AppResult)
deriving Repr, DecidableEq

/-- Translation of on_profile_selected, app.py 94-100: a falsy selection
(cancelled, so absent, or the empty string) exits the app; choosing a
profile re-runs the bootstrap for that profile (the environment f gives
each profile's bootstrap outcome). -/
def on_profile_selected (f : String → BootOutcome) : Option String → SelResult
  | none => SelResult.exited
  | some p =>
      if p = "" then SelResult.exited
      else SelResult.proceeded p (proceed_with_profile p (f p))

/-- Empty initial state of the detail-load path. -/
def initial_load_state : LoadState :=
  LoadState.mk none [] false [] "" [] [] []

/- ----------------------------------------------------------------- -/
/- Helper lemmas                                                      -/
/- ----------------------------------------------------------------- -/

/-- Reading back the key just written returns the new payload. -/
theorem get_save_same (c : List (String × String)) (vid p : String) :
    get_vacancy_from_cache (save_vacancy_to_cache c vid p) vid = some p := by
  simp [save_vacancy_to_cache, get_vacancy_from_cache]

/-- Explicit form of load_vacancy_details on a cache miss. -/
theorem load_miss_eq (s : LoadState) (vid : String) (hvid : vid ≠ "")
    (h : get_vacancy_from_cache s.cache vid = none) :
    load_vacancy_details s (some vid) =
      { s with
          pending_details_id := some vid,
          loader := true,
          loaderLog := s.loaderLog ++ [true],
          details := "",
          dispatched := s.dispatched.map request_cancel ++ [Fetch.mk vid false] } := by
  simp [load_vacancy_details, hvid, set_loader_visible, h]

/-- Explicit form of load_vacancy_details on a cache hit. -/
theorem load_hit_eq (s : LoadState) (vid p : String) (hvid : vid ≠ "")
    (h : get_vacancy_from_cache s.cache vid = some p) :
    load_vacancy_details s (some vid) =
      { s with
          pending_details_id := some vid,
          loader := false,
          loaderLog := s.loaderLog ++ [true, false, false],
          details := render_details p vid } := by
  simp [load_vacancy_details, hvid, set_loader_visible, h,
    display_history_details]

/-- Explicit form of a successful fetch delivery that is still current. -/
theorem fetch_success_current (s : LoadState) (f : Fetch) (p : String)
    (h : s.pending_details_id = some f.vid) :
    fetch_history_details s f (FetchOutcome.success p) =
      { s with
          cache := save_vacancy_to_cache s.cache f.vid p,
          loader := false,
          loaderLog := s.loaderLog ++ [false],
          details := render_details p f.vid } := by
  simp [fetch_history_details, display_history_details, set_loader_visible, h]

/-- Explicit form of a successful fetch delivery that is stale: only the
cache changes. -/
theorem fetch_success_stale (s : LoadState) (f : Fetch) (p : String)
    (h : s.pending_details_id ≠ some f.vid) :
    fetch_history_details s f (FetchOutcome.success p) =
      { s with cache := save_vacancy_to_cache s.cache f.vid p } := by
  simp [fetch_history_details, display_history_details, h]

/-- Explicit form of an authorization-pending fetch delivery: no staleness
check guards the error pane or the loader clear, and the cache is
untouched. -/
theorem fetch_auth_eq (s : LoadState) (f : Fetch) (m : String) :
    fetch_history_details s f (FetchOutcome.authPending m) =
      { s with
          logs := s.logs ++
            [("WARN", String.append "Загрузка деталей отклика приостановлена: " m)],
          notifs := s.notifs ++ [auth_notify_message],
          details := auth_details_message,
          loader := false,
          loaderLog := s.loaderLog ++ [false] } := by
  simp [fetch_history_details, display_details_error, set_loader_visible]

/-- Explicit form of a generic-failure fetch delivery: no staleness check,
cache untouched. -/
theorem fetch_other_eq (s : LoadState) (f : Fetch) (e : String) :
    fetch_history_details s f (FetchOutcome.otherError e) =
      { s with
          logs := s.logs ++
            [("ERROR",
              String.append (String.append "Ошибка деталей " f.vid)
                (String.append ": " e))],
          details := error_details_message e,
          loader := false,
          loaderLog := s.loaderLog ++ [false] } := by
  simp [fetch_history_details, display_details_error, set_loader_visible]

/- ----------------------------------------------------------------- -/
/- Claim theorems                                                     -/
/- ----------------------------------------------------------------- -/

/-- C1 counterexample: the code keeps no generation counter and decides
staleness by resource-id equality only.  First trace: after loading A then
B, an authorization failure of the superseded A fetch still replaces the
detail pane, although its request is not current.  Second trace: the
selection moves A to B and back to A; the fetch dispatched by the first
load of A (recognisable as the cancel-requested A fetch in the dispatch
log) completes and its payload is delivered as a visible update instead of
being discarded. -/
theorem C1_counterexample :
    ((fetch_history_details
        (load_vacancy_details (load_vacancy_details initial_load_state (some "A"))
          (some "B"))
        (Fetch.mk "A" true) (FetchOutcome.authPending "expired")).details
      = auth_details_message ∧
     (load_vacancy_details (load_vacancy_details initial_load_state (some "A"))
        (some "B")).pending_details_id = some "B") ∧
    ((load_vacancy_details
        (load_vacancy_details (load_vacancy_details initial_load_state (some "A"))
          (some "B")) (some "A")).dispatched
      = [Fetch.mk "A" true, Fetch.mk "B" true, Fetch.mk "A" false] ∧
     (fetch_history_details
        (load_vacancy_details
          (load_vacancy_details (load_vacancy_details initial_load_state (some "A"))
            (some "B")) (some "A"))
        (Fetch.mk "A" true) (FetchOutcome.success "payload")).details
      = render_details "payload" "A") := by
  decide

/-- C1 (amended): delivery of a completed fetch is governed purely by
equality of the fetch's resource id with the current pending id: a
successful payload is rendered exactly when the ids match and leaves the
view untouched otherwise, while an authorization failure message is shown
unconditionally. -/
theorem C1_id_equality_staleness (s : LoadState) (f : Fetch) (p m : String) :
    (s.pending_details_id = some f.vid →
        (fetch_history_details s f (FetchOutcome.success p)).details
            = render_details p f.vid ∧
        (fetch_history_details s f (FetchOutcome.success p)).loader = false) ∧
    (s.pending_details_id ≠ some f.vid →
        (fetch_history_details s f (FetchOutcome.success p)).details = s.details ∧
        (fetch_history_details s f (FetchOutcome.success p)).loader = s.loader) ∧
    (fetch_history_details s f (FetchOutcome.authPending m)).details
        = auth_details_message := by
  refine ⟨?_, ?_, ?_⟩
  · intro h
    rw [fetch_success_current s f p h]
    exact ⟨rfl, rfl⟩
  · intro h
    rw [fetch_success_stale s f p h]
    exact ⟨rfl, rfl⟩
  · rw [fetch_auth_eq s f m]

/-- C1 witness: the amended statement applied at a concrete current state
and at a concrete stale state. -/
theorem C1_id_equality_staleness_witness :
    (fetch_history_details (LoadState.mk (some "7") [] true [] "" [] [] [])
        (Fetch.mk "7" false) (FetchOutcome.success "doc")).details
      = render_details "doc" "7" ∧
    (fetch_history_details (LoadState.mk (some "8") [] true [] "x" [] [] [])
        (Fetch.mk "7" false) (FetchOutcome.success "doc")).details = "x" :=
  ⟨((C1_id_equality_staleness (LoadState.mk (some "7") [] true [] "" [] [] [])
      (Fetch.mk "7" false) "doc" "m").1 (by decide)).1,
   ((C1_id_equality_staleness (LoadState.mk (some "8") [] true [] "x" [] [] [])
      (Fetch.mk "7" false) "doc" "m").2.1 (by decide)).1⟩

/-- C2: debounce collapsing.  For any burst of valid selection notifications
(the model folds the notifications with no timer expiry in between, which
is exactly the inter-arrival below the quiet period), settling the gate
triggers exactly one downstream load, carrying the id of the last
notification; every notification discards the previous pending timer
(independence of the prior gate state), and the gate holds at most one
outstanding timer. -/
theorem C2_debounce_collapsing (g : GateState) (init : List String)
    (last : String) (hall : ∀ v ∈ init ++ [last], valid_vacancy_id v) :
    settle_gate
        ((init ++ [last]).foldl
          (fun s v => on_option_list_option_highlighted s (some v)) g) = [last] ∧
    (∀ g1 g2 x, on_option_list_option_highlighted g1 x
        = on_option_list_option_highlighted g2 x) ∧
    (∀ g', (settle_gate g').length ≤ 1) := by
  refine ⟨?_, ?_, ?_⟩
  · obtain ⟨h1, h2⟩ := hall last (by simp)
    rw [List.foldl_append]
    simp [on_option_list_option_highlighted, h1, h2, settle_gate]
  · intro g1 g2 x
    cases x <;> rfl
  · intro g'
    cases h : g'.timer <;> simp [settle_gate, h]

/-- C2 witness: a three-notification burst collapses to one load of the
last id. -/
theorem C2_debounce_collapsing_witness :
    settle_gate
        ((["1", "2"] ++ ["3"]).foldl
          (fun s v => on_option_list_option_highlighted s (some v))
          (GateState.mk none)) = ["3"] :=
  (C2_debounce_collapsing (GateState.mk none) ["1", "2"] "3" (by decide)).1

/-- C3: cache hit short-circuits dispatch.  A load whose id is in the cache
delivers the rendered cached payload synchronously, ends with the loader
off, and dispatches nothing; and on a miss, once the dispatched fetch has
completed successfully, a second load of the same id dispatches no further
fetch, so the two calls dispatch exactly one fetch in total. -/
theorem C3_cache_hit_short_circuit (s : LoadState) (vid p q : String)
    (hvid : vid ≠ "") :
    (get_vacancy_from_cache s.cache vid = some p →
        (load_vacancy_details s (some vid)).details = render_details p vid ∧
        (load_vacancy_details s (some vid)).loader = false ∧
        (load_vacancy_details s (some vid)).dispatched = s.dispatched) ∧
    (get_vacancy_from_cache s.cache vid = none →
        (load_vacancy_details s (some vid)).dispatched
            = s.dispatched.map request_cancel ++ [Fetch.mk vid false] ∧
        (load_vacancy_details
            (fetch_history_details (load_vacancy_details s (some vid))
              (Fetch.mk vid false) (FetchOutcome.success q))
            (some vid)).dispatched
          = (load_vacancy_details s (some vid)).dispatched) := by
  constructor
  · intro h
    rw [load_hit_eq s vid p hvid h]
    exact ⟨rfl, rfl, rfl⟩
  · intro h
    rw [load_miss_eq s vid hvid h]
    refine ⟨rfl, ?_⟩
    rw [fetch_success_current _ _ _ (by rfl)]
    rw [load_hit_eq _ vid q hvid (by simpa using get_save_same s.cache vid q)]

/-- C3 witness: a hit at a pre-populated key dispatches nothing, and a miss
followed by a successful completion and a reload dispatches once in
total. -/
theorem C3_cache_hit_short_circuit_witness :
    ((load_vacancy_details (LoadState.mk none [("42", "doc")] false [] "" [] [] [])
        (some "42")).dispatched = [] ∧
     (load_vacancy_details (LoadState.mk none [("42", "doc")] false [] "" [] [] [])
        (some "42")).loader = false) ∧
    (load_vacancy_details
        (fetch_history_details
          (load_vacancy_details initial_load_state (some "9"))
          (Fetch.mk "9" false) (FetchOutcome.success "d"))
        (some "9")).dispatched
      = (load_vacancy_details initial_load_state (some "9")).dispatched :=
  ⟨⟨((C3_cache_hit_short_circuit (LoadState.mk none [("42", "doc")] false [] "" [] [] [])
        "42" "doc" "q" (by decide)).1 (by decide)).2.2,
    ((C3_cache_hit_short_circuit (LoadState.mk none [("42", "doc")] false [] "" [] [] [])
        "42" "doc" "q" (by decide)).1 (by decide)).2.1⟩,
   ((C3_cache_hit_short_circuit initial_load_state "9" "p" "d"
        (by decide)).2 (by decide)).2⟩

/-- C4: the cache is written by a background fetch exactly when the fetch
succeeds: a successful completion writes through (and the written payload
is what a subsequent read returns), even when the result is stale and its
view update is skipped; an authorization-pending or any other failure
leaves the cache unchanged. -/
theorem C4_cache_write_iff_success (s : LoadState) (f : Fetch) (p m e : String) :
    (fetch_history_details s f (FetchOutcome.success p)).cache
        = save_vacancy_to_cache s.cache f.vid p ∧
    get_vacancy_from_cache
        (fetch_history_details s f (FetchOutcome.success p)).cache f.vid = some p ∧
    (s.pending_details_id ≠ some f.vid →
        (fetch_history_details s f (FetchOutcome.success p)).details = s.details ∧
        (fetch_history_details s f (FetchOutcome.success p)).loader = s.loader) ∧
    (fetch_history_details s f (FetchOutcome.authPending m)).cache = s.cache ∧
    (fetch_history_details s f (FetchOutcome.otherError e)).cache = s.cache := by
  have hcache : (fetch_history_details s f (FetchOutcome.success p)).cache
      = save_vacancy_to_cache s.cache f.vid p := by
    by_cases h : s.pending_details_id = some f.vid
    · rw [fetch_success_current s f p h]
    · rw [fetch_success_stale s f p h]
  refine ⟨hcache, ?_, ?_, ?_, ?_⟩
  · rw [hcache]
    exact get_save_same s.cache f.vid p
  · intro h
    rw [fetch_success_stale s f p h]
    exact ⟨rfl, rfl⟩
  · rw [fetch_auth_eq s f m]
  · rw [fetch_other_eq s f e]

/-- C4 witness: a stale successful fetch still writes its payload through,
and a failed fetch leaves a pre-existing entry unchanged. -/
theorem C4_cache_write_iff_success_witness :
    get_vacancy_from_cache
        (fetch_history_details (LoadState.mk (some "B") [] true [] "" [] [] [])
          (Fetch.mk "A" true) (FetchOutcome.success "doc")).cache "A" = some "doc" ∧
    (fetch_history_details (LoadState.mk (some "B") [("A", "old")] true [] "" [] [] [])
        (Fetch.mk "A" true) (FetchOutcome.otherError "boom")).cache
      = [("A", "old")] :=
  ⟨(C4_cache_write_iff_success (LoadState.mk (some "B") [] true [] "" [] [] [])
      (Fetch.mk "A" true) "doc" "m" "e").2.1,
   (C4_cache_write_iff_success (LoadState.mk (some "B") [("A", "old")] true [] "" [] [] [])
      (Fetch.mk "A" true) "doc" "m" "boom").2.2.2.2⟩

/-- C5 counterexample: a history-sync failure other than
authorization-pending is not handled by the worker at all: the model of
_sync_history_worker shows the exception escaping the function's own
boundary with no log entry written, contradicting the claim that such a
failure is contained and logged for diagnosis. -/
theorem C5_counterexample :
    (sync_history_worker (SyncOutcome.otherError "network down")).logs = [] ∧
    (sync_history_worker (SyncOutcome.otherError "network down")).raised
      = some "network down" := by
  decide

/-- C5 (amended): on authorization-pending the sync worker terminates
without re-raising, writes exactly one WARN log entry, marshals exactly one
non-blocking warning to the loop, and calls the sync exactly once (no
retry); any other failure escapes the worker function uncaught and
unlogged, its containment being left to the dispatcher. -/
theorem C5_sync_worker_failure_paths (m e : String) :
    (sync_history_worker (SyncOutcome.authPending m)).raised = none ∧
    (sync_history_worker (SyncOutcome.authPending m)).marshalled_notifs
        = [sync_auth_notify_message] ∧
    (sync_history_worker (SyncOutcome.authPending m)).logs
        = [("WARN", String.append "Синхронизация истории остановлена: " m)] ∧
    (sync_history_worker (SyncOutcome.authPending m)).sync_calls = 1 ∧
    (sync_history_worker (SyncOutcome.otherError e)).raised = some e ∧
    (sync_history_worker (SyncOutcome.otherError e)).logs = [] ∧
    (sync_history_worker (SyncOutcome.otherError e)).sync_calls = 1 :=
  ⟨rfl, rfl, rfl, rfl, rfl, rfl, rfl⟩

/-- C6 counterexample: after loading A (miss) and then B (miss), the stale
successful completion of the A fetch is discarded without touching the
loading indicator: the loader is still on and no clear was recorded, so the
request generation whose outcome is a discarded stale result is not cleared
at its delivery decision (that clear is left to the superseding request),
contradicting the claim that the loading state is cleared exactly once per
request generation for the discard outcome as well. -/
theorem C6_counterexample :
    (fetch_history_details
        (load_vacancy_details (load_vacancy_details initial_load_state (some "A"))
          (some "B"))
        (Fetch.mk "A" true) (FetchOutcome.success "payload")).loader = true ∧
    (fetch_history_details
        (load_vacancy_details (load_vacancy_details initial_load_state (some "A"))
          (some "B"))
        (Fetch.mk "A" true) (FetchOutcome.success "payload")).loaderLog
      = [true, true] ∧
    (load_vacancy_details (load_vacancy_details initial_load_state (some "A"))
        (some "B")).pending_details_id = some "B" := by
  decide

/-- C6 (amended): every load with a valid id shows the loading indicator
immediately and synchronously (the show is recorded before the dispatch of
the same step); the indicator is cleared within the same synchronous step
on a cache hit (the code in fact records two clears there), cleared once by
a still-current successful delivery, cleared once by every error delivery
even a stale one, and not touched at all by a discarded stale successful
delivery. -/
theorem C6_loader_discipline (s : LoadState) (vid c p m e : String) (f : Fetch)
    (hvid : vid ≠ "") :
    (get_vacancy_from_cache s.cache vid = none →
        (load_vacancy_details s (some vid)).loaderLog = s.loaderLog ++ [true] ∧
        (load_vacancy_details s (some vid)).loader = true) ∧
    (get_vacancy_from_cache s.cache vid = some c →
        (load_vacancy_details s (some vid)).loaderLog
            = s.loaderLog ++ [true, false, false] ∧
        (load_vacancy_details s (some vid)).loader = false) ∧
    (s.pending_details_id = some f.vid →
        (fetch_history_details s f (FetchOutcome.success p)).loaderLog
            = s.loaderLog ++ [false]) ∧
    (s.pending_details_id ≠ some f.vid →
        (fetch_history_details s f (FetchOutcome.success p)).loaderLog
            = s.loaderLog) ∧
    (fetch_history_details s f (FetchOutcome.authPending m)).loaderLog
        = s.loaderLog ++ [false] ∧
    (fetch_history_details s f (FetchOutcome.otherError e)).loaderLog
        = s.loaderLog ++ [false] := by
  refine ⟨?_, ?_, ?_, ?_, ?_, ?_⟩
  · intro h
    rw [load_miss_eq s vid hvid h]
    exact ⟨rfl, rfl⟩
  · intro h
    rw [load_hit_eq s vid c hvid h]
    exact ⟨rfl, rfl⟩
  · intro h
    rw [fetch_success_current s f p h]
  · intro h
    rw [fetch_success_stale s f p h]
  · rw [fetch_auth_eq s f m]
  · rw [fetch_other_eq s f e]

/-- C6 witness: the amended discipline applied at a concrete miss and at a
concrete stale delivery. -/
theorem C6_loader_discipline_witness :
    ((load_vacancy_details initial_load_state (some "5")).loaderLog = [true] ∧
     (load_vacancy_details initial_load_state (some "5")).loader = true) ∧
    (fetch_history_details (LoadState.mk (some "B") [] true [true, true] "" [] [] [])
        (Fetch.mk "A" true) (FetchOutcome.success "p")).loaderLog = [true, true] :=
  ⟨(C6_loader_discipline initial_load_state "5" "c" "p" "m" "e"
      (Fetch.mk "5" false) (by decide)).1 (by decide),
   (C6_loader_discipline (LoadState.mk (some "B") [] true [true, true] "" [] [] [])
      "5" "c" "p" "m" "e" (Fetch.mk "A" true) (by decide)).2.2.2.1 (by decide)⟩

/-- C7: superseding a pending selection does not abort the in-flight fetch:
the new exclusive dispatch only marks the earlier fetch cancel-requested;
the completion behaviour of a fetch is independent of that flag (its body
has no cancellation checkpoint), so the superseded fetch still completes,
its payload is written through to the cache, and only its view delivery is
discarded by the staleness check. -/
theorem C7_superseded_fetch_runs_to_completion (s : LoadState)
    (vidA vidB p : String) (hmem : Fetch.mk vidA false ∈ s.dispatched)
    (hB : vidB ≠ "") (hne : vidA ≠ vidB)
    (hmiss : get_vacancy_from_cache s.cache vidB = none) :
    Fetch.mk vidA true ∈ (load_vacancy_details s (some vidB)).dispatched ∧
    (∀ t o b1 b2, fetch_history_details t (Fetch.mk vidA b1) o
        = fetch_history_details t (Fetch.mk vidA b2) o) ∧
    get_vacancy_from_cache
        (fetch_history_details (load_vacancy_details s (some vidB))
          (Fetch.mk vidA true) (FetchOutcome.success p)).cache vidA = some p ∧
    (fetch_history_details (load_vacancy_details s (some vidB))
        (Fetch.mk vidA true) (FetchOutcome.success p)).details
      = (load_vacancy_details s (some vidB)).details ∧
    (fetch_history_details (load_vacancy_details s (some vidB))
        (Fetch.mk vidA true) (FetchOutcome.success p)).loader
      = (load_vacancy_details s (some vidB)).loader := by
  rw [load_miss_eq s vidB hB hmiss]
  have hstale : (({ s with
      pending_details_id := some vidB,
      loader := true,
      loaderLog := s.loaderLog ++ [true],
      details := "",
      dispatched := s.dispatched.map request_cancel ++ [Fetch.mk vidB false] } :
        LoadState)).pending_details_id ≠ some (Fetch.mk vidA true).vid := by
    simpa using Ne.symm hne
  refine ⟨?_, ?_, ?_, ?_, ?_⟩
  · exact List.mem_append_left _ (List.mem_map.mpr ⟨Fetch.mk vidA false, hmem, rfl⟩)
  · intro t o b1 b2
    cases o <;> rfl
  · rw [fetch_success_stale _ _ _ hstale]
    exact get_save_same _ vidA p
  · rw [fetch_success_stale _ _ _ hstale]
  · rw [fetch_success_stale _ _ _ hstale]

/-- C7 witness: with an in-flight fetch for A, loading B marks A
cancel-requested, and A's completion still writes its payload while the
detail pane keeps B's state. -/
theorem C7_superseded_fetch_runs_to_completion_witness :
    Fetch.mk "A" true ∈
      (load_vacancy_details
        (LoadState.mk (some "A") [] true [true] "" [Fetch.mk "A" false] [] [])
        (some "B")).dispatched ∧
    get_vacancy_from_cache
        (fetch_history_details
          (load_vacancy_details
            (LoadState.mk (some "A") [] true [true] "" [Fetch.mk "A" false] [] [])
            (some "B"))
          (Fetch.mk "A" true) (FetchOutcome.success "p")).cache "A" = some "p" :=
  ⟨(C7_superseded_fetch_runs_to_completion
      (LoadState.mk (some "A") [] true [true] "" [Fetch.mk "A" false] [] [])
      "A" "B" "p" (by decide) (by decide) (by decide) (by decide)).1,
   (C7_superseded_fetch_runs_to_completion
      (LoadState.mk (some "A") [] true [true] "" [Fetch.mk "A" false] [] [])
      "A" "B" "p" (by decide) (by decide) (by decide) (by decide)).2.2.1⟩

/-- C8: when profile bootstrap observes an authorization-pending signal the
loop surfaces a non-blocking warning toast, marks the subtitle as awaiting
authorization, pushes the profile-selection screen again instead of exiting
or pushing a session screen, and the session resumes only through the
selection callback: a falsy selection (cancelled or empty) exits, and a
non-empty profile name re-runs the bootstrap afresh for that profile. -/
theorem C8_bootstrap_auth_recovery (p q m : String) (step : BootStep)
    (f : String → BootOutcome) :
    ("warning", auth_bootstrap_notify)
        ∈ (proceed_with_profile p (BootOutcome.auth step m)).notifs ∧
    (proceed_with_profile p (BootOutcome.auth step m)).pushed
        = [ScreenKind.profileSelection] ∧
    (proceed_with_profile p (BootOutcome.auth step m)).exited = false ∧
    (proceed_with_profile p (BootOutcome.auth step m)).exit_error = none ∧
    (proceed_with_profile p (BootOutcome.auth step m)).sub_title
        = pending_sub_title p ∧
    on_profile_selected f none = SelResult.exited ∧
    on_profile_selected f (some "") = SelResult.exited ∧
    (q ≠ "" →
        on_profile_selected f (some q)
          = SelResult.proceeded q (proceed_with_profile q (f q))) := by
  refine ⟨?_, rfl, rfl, rfl, rfl, rfl, ?_, ?_⟩
  · cases step <;> simp [proceed_with_profile, boot_prefix_notifs]
  · simp [on_profile_selected]
  · intro hq
    simp [on_profile_selected, hq]

/-- C8 witness: a concrete authorization-pending bootstrap surfaces the
warning toast, and a concrete non-empty reselection re-runs the
bootstrap. -/
theorem C8_bootstrap_auth_recovery_witness :
    ("warning", auth_bootstrap_notify)
        ∈ (proceed_with_profile "alice"
            (BootOutcome.auth BootStep.tokenCheck "expired")).notifs ∧
    on_profile_selected (fun _ => BootOutcome.ok 1) (some "bob")
        = SelResult.proceeded "bob"
            (proceed_with_profile "bob" (BootOutcome.ok 1)) :=
  ⟨(C8_bootstrap_auth_recovery "alice" "bob" "expired" BootStep.tokenCheck
      (fun _ => BootOutcome.ok 1)).1,
   (C8_bootstrap_auth_recovery "alice" "bob" "expired" BootStep.tokenCheck
      (fun _ => BootOutcome.ok 1)).2.2.2.2.2.2.2 (by decide)⟩

/-- C9: a history refresh with a non-empty entry list highlights the first
row and invokes the detail load for it directly in the same synchronous
step, leaving the debounce gate untouched, so the initial detail load is
not subject to the quiet period. -/
theorem C9_initial_load_direct (entries : List HistEntry) (ls : LoadState)
    (g : GateState) (e : HistEntry) (rest : List HistEntry)
    (hne : entries = e :: rest) :
    (refresh_history entries ls g).highlighted = some 0 ∧
    (refresh_history entries ls g).gate = g ∧
    (option_id_of e ≠ "__none__" →
        (refresh_history entries ls g).loadState
            = load_vacancy_details ls (some (option_id_of e))) := by
  subst hne
  refine ⟨?_, ?_, ?_⟩
  · by_cases h : option_id_of e = "__none__" <;> simp [refresh_history, h]
  · by_cases h : option_id_of e = "__none__" <;> simp [refresh_history, h]
  · intro h
    simp [refresh_history, h]

/-- C9 witness: a one-entry refresh highlights row zero and performs the
load of that entry synchronously with the gate unchanged. -/
theorem C9_initial_load_direct_witness :
    (refresh_history [HistEntry.mk (some "5")] initial_load_state
        (GateState.mk none)).highlighted = some 0 ∧
    (refresh_history [HistEntry.mk (some "5")] initial_load_state
        (GateState.mk none)).gate = GateState.mk none ∧
    (refresh_history [HistEntry.mk (some "5")] initial_load_state
        (GateState.mk none)).loadState
      = load_vacancy_details initial_load_state (some "5") :=
  ⟨(C9_initial_load_direct [HistEntry.mk (some "5")] initial_load_state
      (GateState.mk none) (HistEntry.mk (some "5")) [] rfl).1,
   (C9_initial_load_direct [HistEntry.mk (some "5")] initial_load_state
      (GateState.mk none) (HistEntry.mk (some "5")) [] rfl).2.1,
   (C9_initial_load_direct [HistEntry.mk (some "5")] initial_load_state
      (GateState.mk none) (HistEntry.mk (some "5")) [] rfl).2.2 (by decide)⟩

/-- C10: a notification carrying an absent, empty or placeholder id stops
any pending debounce timer and schedules no new one, whatever the prior
gate state; hence a burst whose last notification is invalid triggers no
downstream load at settle, even if earlier notifications carried valid
ids. -/
theorem C10_invalid_id_cancels (g : GateState) (ids : List (Option String))
    (bad : Option String)
    (hbad : ∀ v, bad = some v → ¬ valid_vacancy_id v) :
    (∀ g1, on_option_list_option_highlighted g1 bad = GateState.mk none) ∧
    settle_gate ((ids ++ [bad]).foldl on_option_list_option_highlighted g)
      = [] := by
  have hnone : ∀ g1, on_option_list_option_highlighted g1 bad = GateState.mk none := by
    intro g1
    cases bad with
    | none => rfl
    | some v =>
        have hv := hbad v rfl
        unfold valid_vacancy_id at hv
        push_neg at hv
        by_cases h1 : v = ""
        · simp [on_option_list_option_highlighted, h1]
        · have h2 := hv h1
          simp [on_option_list_option_highlighted, h1, h2]
  refine ⟨hnone, ?_⟩
  rw [List.foldl_append]
  simp [hnone, settle_gate]

/-- C10 witness: a burst of two valid notifications ended by the
placeholder id leaves no timer and fires no load. -/
theorem C10_invalid_id_cancels_witness :
    on_option_list_option_highlighted (GateState.mk (some "7")) (some "__none__")
        = GateState.mk none ∧
    settle_gate
        (([some "1", some "2"] ++ [some "__none__"]).foldl
          on_option_list_option_highlighted (GateState.mk none)) = [] :=
  ⟨(C10_invalid_id_cancels (GateState.mk none) [some "1", some "2"]
      (some "__none__")
      (fun v hv => by injection hv with h; subst h; decide)).1
      (GateState.mk (some "7")),
   (C10_invalid_id_cancels (GateState.mk none) [some "1", some "2"]
      (some "__none__")
      (fun v hv => by injection hv with h; subst h; decide)).2⟩
